import Mathlib

/-!
Shallow embedding of `src/pocketchemist/processors/processor.py`
(the Processor / GroupProcessor / Module trio) and proofs about it.

Python dicts are modelled as association lists over `String` keys; a
Python dict built by the interpreter has no duplicate keys, and all
operations below use first-match lookup, which coincides with dict
lookup on duplicate-free lists.  Python exceptions are modelled with
`Except`.  Machine-level details that no claim touches (reference
counting, float arithmetic) are left abstract.
-/

namespace PocketChemist

/-- Scalar values that may appear as parameter values
(`t.Union[str, int, float, 'lmfit.Parameter']` in the source).
Floats and lmfit parameter handles are abstract markers: no claim computes
with them, they only matter through not being `str` instances. -/
inductive PyVal where
  | str (s : String)
  | int (n : Int)
  | float (bits : Nat)
  | handle (id : Nat)
  deriving DecidableEq, Repr

/-- A Python dict with string keys, as an association list in
insertion order. -/
abbrev Dict (α : Type) := List (String × α)

/-- First-match association-list lookup; on duplicate-free lists this
is exactly Python dict lookup. -/
def lookupStr {α : Type} : Dict α → String → Option α
  | [], _ => none
  | (k, v) :: rest, key => if k = key then some v else lookupStr rest key

/-- Python `d[k] = v`: overwrite in place when the key exists,
else append (dicts preserve insertion order). -/
def dictSet {α : Type} (d : Dict α) (k : String) (v : α) : Dict α :=
  if (lookupStr d k).isSome then
    d.map (fun kv => if kv.1 = k then (k, v) else kv)
  else d ++ [(k, v)]

/-- The Python exceptions raised by the embedded code.  An exception's
message is carried as structured data; `missingParameters` holds the
class name and the full set of missing required names interpolated
into the source's message string. -/
inductive PyError where
  | missingParameters (className : String) (missing : List String)
  | attributeError (className : String) (attrName : String)
  | typeError (msg : String)
  | raised (msg : String)
  deriving DecidableEq, Repr

/-- A concrete Processor subclass: its class name and its declared
`required_params` / `optional_params` tuples. -/
structure ProcessorClass where
  className : String
  required_params : List String
  optional_params : List String

/-- The instance attributes set by `Processor.__init__`: `self.name`
(`None` unless a name was passed) and `self.params`. -/
structure ProcessorState where
  name : Option String
  params : Dict PyVal
  deriving DecidableEq, Repr

/-- Embedding of `Processor.__init__(self, name=None, *args, **kwargs)`:
computes `missing_params = set(required_params) - kwargs.keys()` and
raises `ValueError` naming every missing parameter when nonempty;
otherwise stores into `params` exactly the kwargs whose key lies in
`required_params | optional_params`.  The `args` tuple is bound and
never referenced, exactly as in the source. -/
def Processor.init (cls : ProcessorClass) (name : Option String)
    (args : List PyVal) (kwargs : Dict PyVal) : Except PyError ProcessorState :=
  let missing := (cls.required_params.filter
    (fun r => (lookupStr kwargs r).isNone)).dedup
  if missing.isEmpty then
    .ok { name := name,
          params := kwargs.filter (fun kv =>
            cls.required_params.contains kv.1 ||
            cls.optional_params.contains kv.1) }
  else
    .error (.missingParameters cls.className missing)

/-- Embedding of `Processor.__getattr__`: Python invokes it only after
normal attribute lookup fails on the instance and its class, so the
function models exactly that fallback.  After `__init__`, `self.params`
is always a dict, so the source's `isinstance(self.params, dict)` guard
holds for every constructed instance. -/
def Processor.getattrFallback (cls : ProcessorClass) (st : ProcessorState)
    (attr : String) : Except PyError PyVal :=
  match lookupStr st.params attr with
  | some v => .ok v
  | none => .error (.attributeError cls.className attr)

/-! ### Processor.print

The source builds the line
`" " * (level * space_level) + item_number + name + params` and echoes
it to stderr; `click.style` only wraps the name in terminal color
codes, which are presentation and are dropped here.  The params string
is `", ".join("=".join((k, v)) for k, v in self.params.items())`, and
`str.join` raises `TypeError` whenever an item of the joined sequence
is not a `str` instance. -/

/-- Embedding of the Python expression `"=".join((k, v))` for a dict
item: `k` is a dict key, hence always a `str`; when `v` is not a `str`
instance, `str.join` raises `TypeError`. -/
def joinEq (k : String) (v : PyVal) : Except PyError String :=
  match v with
  | .str s => .ok (k ++ "=" ++ s)
  | _ => .error (.typeError "sequence item 1: expected str instance")

/-- Embedding of `", ".join("=".join((k, v)) for k, v in params.items())`:
items are joined left to right and the first non-str value raises. -/
def renderParams : Dict PyVal → Except PyError String
  | [] => .ok ""
  | [(k, v)] => joinEq k v
  | (k, v) :: kv2 :: rest => do
    let s ← joinEq k v
    let t ← renderParams (kv2 :: rest)
    .ok (s ++ ", " ++ t)

/-- Embedding of `Processor.print(self, level=0, space_level=0,
item_number="")`: returns the rendered diagnostic line, or the
exception the rendering raises.  `item_number` is falsy exactly when
it is the empty string. -/
def Processor.printLine (cls : ProcessorClass) (st : ProcessorState)
    (level : Nat) (space_level : Nat) (item_number : String) :
    Except PyError String := do
  let name := st.name.getD cls.className
  let itemNum := if item_number = "" then "" else item_number ++ ". "
  let ps ← renderParams st.params
  let ps := if ps = "" then "" else "(" ++ ps ++ ")"
  .ok (String.mk (List.replicate (level * space_level) ' ') ++
       itemNum ++ name ++ ps)

/-! ### GroupProcessor

`GroupProcessor.process(self, **kwargs)` runs
`for processor in self.processors: rv = processor.process(**kwargs)`.
The Python call `processor.process(**kwargs)` unpacks the group's
kwargs dict into keyword arguments, and the child's own `**kwargs`
parameter collects them into a newly allocated dict; the child
therefore receives a fresh dict object holding a shallow copy of the
group's entries, not the group's dict itself.  Dict object identity is
modelled by a numeric id, with a fresh id allocated at each call. -/

/-- A child Processor, abstracted to its observable `process`
behavior: the mutation it performs on the kwargs dict it receives.
All parameter values are immutable scalars, so dict mutation is the
only channel a child could write through. -/
structure ChildProc where
  effect : Dict PyVal → Dict PyVal

/-- One child invocation as the group performs it: the identity of the
dict object the child received and that dict's contents at call time. -/
structure Invocation where
  dictId : Nat
  received : Dict PyVal
  deriving DecidableEq, Repr

/-- The loop body of `GroupProcessor.process`: each iteration calls
`processor.process(**kwargs)`, allocating a fresh dict (id `nextId`)
that copies the group's kwargs; the child mutates its own dict and the
result (`rv` and the child's dict alike) is discarded.  The trace
lists the invocations in execution order. -/
def GroupProcessor.processAux : List ChildProc → Nat → Dict PyVal → List Invocation
  | [], _, _ => []
  | c :: rest, nextId, kwargs =>
    let afterChildDict := c.effect kwargs
    let _ := afterChildDict
    { dictId := nextId, received := kwargs } ::
      GroupProcessor.processAux rest (nextId + 1) kwargs

/-- Embedding of `GroupProcessor.process(self, **kwargs)`: the group's
own kwargs dict has id `selfDictId` and contents `kwargs`; the
`hasattr(self.processors, '__iter__')` guard always holds since
`__init__` sets `self.processors = []`, a list.  Returns the trace of
child invocations. -/
def GroupProcessor.process (children : List ChildProc) (selfDictId : Nat)
    (kwargs : Dict PyVal) : List Invocation :=
  GroupProcessor.processAux children (selfDictId + 1) kwargs

/-- Modelled from the spec: "iterates children strictly in insertion
order, invoking child.process(context) on each with the *same* context
object (mutations by one child are visible to the next)".  Every child
receives the group's own dict (id `selfDictId`), and each child's
mutations are applied to that shared dict before the next child runs. -/
def GroupProcessor.processSharedSpec : List ChildProc → Nat → Dict PyVal → List Invocation
  | [], _, _ => []
  | c :: rest, selfDictId, ctx =>
    { dictId := selfDictId, received := ctx } ::
      GroupProcessor.processSharedSpec rest selfDictId (c.effect ctx)

/-- An argument passed to `GroupProcessor.add`: either an object
satisfying `isinstance(processor, Processor)` or any other value. -/
inductive AddArg where
  | proc (p : ChildProc)
  | nonProc (v : PyVal)

/-- Embedding of `GroupProcessor.add`: appends to `self.processors`
when the argument is a Processor instance, else raises `TypeError`;
returned alongside the (possibly unchanged) child list. -/
def GroupProcessor.add (className : String) (procs : List ChildProc)
    (x : AddArg) : Except PyError Unit × List ChildProc :=
  match x with
  | .proc p => (.ok (), procs ++ [p])
  | .nonProc _ =>
    (.error (.typeError ("The " ++ className ++
      " class can only append Processor type objects.")), procs)

/-- Embedding of `GroupProcessor.__iadd__`, which calls `self.add(other)`
and returns `self`. -/
def GroupProcessor.iadd (className : String) (procs : List ChildProc)
    (x : AddArg) : Except PyError Unit × List ChildProc :=
  GroupProcessor.add className procs x

/-! ### Module

`Module` descriptors resolve an importable unit lazily through the
class-level dict `Module._modules`, shared by every instance.  The
importing machinery is modelled as an environment mapping a module name
to what `import_module(name)` does: return a module object, raise
`ImportError`, or raise some other exception (e.g. an exception thrown
by the module's own top-level code). -/

/-- A loaded Python module object: its attribute dict.  Attribute
values are plain objects identified by a number (functions, classes,
strings alike — nothing below computes with them). -/
structure ModuleRef where
  attrs : Dict Nat
  deriving DecidableEq, Repr

/-- What `import_module(name)` does for a given name. -/
inductive LoadOutcome where
  | ok (m : ModuleRef)
  | importError
  | raises (e : String)

/-- The process's import environment. -/
structure PyEnv where
  load : String → LoadOutcome

/-- The class-level cache `Module._modules`: maps a module name to the
loaded module, or to `None` when a load attempt raised `ImportError`. -/
abbrev ModuleCache := Dict (Option ModuleRef)

/-- A `Module` dataclass instance. -/
structure Module where
  category : String
  name : String
  callable_name : String

/-- Embedding of `Module.get_module`: returns the cached entry when
`self.name` is a key of `Module._modules`; otherwise calls
`import_module`, caching the module on success and `None` on
`ImportError`.  Any other exception propagates out of the bare
`try/except ImportError` and nothing is cached.  The result is the
returned value (or propagated exception), the cache afterwards, and
whether a load attempt was made in this call. -/
def Module.get_module (env : PyEnv) (m : Module) (cache : ModuleCache) :
    Except PyError (Option ModuleRef) × ModuleCache × Bool :=
  match lookupStr cache m.name with
  | some cached => (.ok cached, cache, false)
  | none =>
    match env.load m.name with
    | .ok mod => (.ok (some mod), cache ++ [(m.name, some mod)], true)
    | .importError => (.ok none, cache ++ [(m.name, (none : Option ModuleRef))], true)
    | .raises e => (.error (.raised e), cache, true)

/-- Attributes possessed by Python's `None` object (its type
`NoneType` defines `__class__`, `__str__`, `__doc__`, `__eq__`,
`__hash__`, `__bool__`, `__repr__`, among others); the values are
abstract object identities.  `getattr(None, a, None)` returns one of
these, not the `None` default, whenever `a` is among them. -/
def noneAttrs : Dict Nat :=
  [("__class__", 9000), ("__str__", 9001), ("__repr__", 9002),
   ("__doc__", 9003), ("__eq__", 9004), ("__hash__", 9005),
   ("__bool__", 9006)]

/-- Embedding of `getattr(module, attr, None)` where `module` is the
value returned by `get_module`: either a module object or `None`. -/
def pyGetattrOr (obj : Option ModuleRef) (attr : String) : Option Nat :=
  match obj with
  | some mod => lookupStr mod.attrs attr
  | none => lookupStr noneAttrs attr

/-- Embedding of `Module.get_callable`: calls `self.get_module()` and
returns `getattr(module, self.callable_name, None)` on its result;
an exception from `get_module` propagates. -/
def Module.get_callable (env : PyEnv) (m : Module) (cache : ModuleCache) :
    Except PyError (Option Nat) × ModuleCache × Bool :=
  match Module.get_module env m cache with
  | (.ok mod, cacheAfter, attempted) =>
    (.ok (pyGetattrOr mod m.callable_name), cacheAfter, attempted)
  | (.error e, cacheAfter, attempted) => (.error e, cacheAfter, attempted)

/-! ### Concrete instances used by witnesses and counterexamples -/

/-- A sample concrete Processor subclass with one required and one
optional parameter. -/
def exCls : ProcessorClass := ⟨"ExProc", ["x"], ["opt"]⟩

/-- Sample kwargs supplying the required key and one unrecognized key. -/
def exKw : Dict PyVal := [("x", .int 5), ("junk", .str "j")]

/-- A child processor whose process sets `kwargs["x"] = 1`. -/
def childA : ChildProc := ⟨fun d => dictSet d "x" (PyVal.int 1)⟩

/-- A child processor whose process writes nothing. -/
def childB : ChildProc := ⟨fun d => d⟩

/-- A module object exposing one function attribute `fn`. -/
def modW : ModuleRef := ⟨[("fn", 1)]⟩

/-- An import environment in which only the module `pkg` exists; every
other name raises `ImportError`. -/
def envW : PyEnv := ⟨fun n => if n = "pkg" then .ok modW else .importError⟩

/-- A Module descriptor for the present package. -/
def mW : Module := ⟨"cat", "pkg", "fn"⟩

/-- A Module descriptor for a package that is not installed. -/
def mAbsent : Module := ⟨"cat", "absent_pkg", "fn"⟩

/-- An import environment in which importing anything raises a
non-ImportError exception (a module whose top-level code raises). -/
def envRaise : PyEnv := ⟨fun _ => .raises "boom"⟩

/-- A Module descriptor naming a package whose import raises. -/
def mRaise : Module := ⟨"cat", "badpkg", "fn"⟩

/-- An import environment in which no module is installed. -/
def envAbsent : PyEnv := ⟨fun _ => .importError⟩

/-- A Module descriptor whose callable name is an attribute that the
`None` object itself possesses. -/
def mDunder : Module := ⟨"cat", "absent_pkg", "__class__"⟩

/-! ### Helper lemmas -/

/-- Lookup in a key-filtered dict: a key passing the filter looks up
as in the original dict, a key failing it is absent. -/
theorem lookupStr_filter {α : Type} (p : String → Bool) (d : Dict α) (k : String) :
    lookupStr (d.filter (fun kv => p kv.1)) k =
      if p k then lookupStr d k else none := by
  induction d with
  | nil => simp [lookupStr]
  | cons kv rest ih =>
    obtain ⟨k1, v1⟩ := kv
    by_cases hp : p k1 <;> by_cases hk : k1 = k <;>
      simp_all [List.filter_cons, lookupStr]

/-- Lookup distributes over append: the left dict is consulted first. -/
theorem lookupStr_append {α : Type} (d1 d2 : Dict α) (k : String) :
    lookupStr (d1 ++ d2) k =
      match lookupStr d1 k with
      | some v => some v
      | none => lookupStr d2 k := by
  induction d1 with
  | nil => simp [lookupStr]
  | cons kv rest ih =>
    by_cases hk : kv.1 = k <;> simp [lookupStr, hk, ih]

/-- When every required parameter is supplied, the missing-parameter
list computed by `Processor.init` is empty. -/
theorem init_missing_isEmpty (cls : ProcessorClass) (kwargs : Dict PyVal)
    (h : ∀ r ∈ cls.required_params, (lookupStr kwargs r).isSome) :
    ((cls.required_params.filter
      (fun r => (lookupStr kwargs r).isNone)).dedup).isEmpty := by
  have hnil : cls.required_params.filter
      (fun r => (lookupStr kwargs r).isNone) = [] := by
    rw [List.filter_eq_nil_iff]
    intro a ha
    have hs := h a ha
    simp only [Option.isNone_iff_eq_none]
    intro hn
    rw [hn] at hs
    simp at hs
  simp [hnil]

/-! ### Claim theorems -/

/-- C2: when every name in `required_params` appears in the supplied
kwargs, construction succeeds and the resulting `params` is exactly
the restriction of the kwargs to `required_params union
optional_params`: a key in neither set is absent from `params`, and
every supplied required or optional key maps to its supplied value
unchanged. -/
theorem processor_init_params_exact (cls : ProcessorClass)
    (name : Option String) (args : List PyVal) (kwargs : Dict PyVal)
    (h : ∀ r ∈ cls.required_params, (lookupStr kwargs r).isSome) :
    (Processor.init cls name args kwargs).isOk = true ∧
    ∀ st, Processor.init cls name args kwargs = .ok st →
      st.name = name ∧
      ∀ k, lookupStr st.params k =
        if cls.required_params.contains k || cls.optional_params.contains k
        then lookupStr kwargs k else none := by
  have hmiss := init_missing_isEmpty cls kwargs h
  constructor
  · simp [Processor.init, hmiss, Except.isOk, Except.toBool]
  · intro st hst
    rw [Processor.init] at hst
    simp only [hmiss, if_pos] at hst
    cases hst
    refine ⟨rfl, fun k => ?_⟩
    exact lookupStr_filter
      (fun k => cls.required_params.contains k || cls.optional_params.contains k)
      kwargs k

/-- C2 witness: for the class with required `x` and optional `opt`,
constructing with kwargs `x=5, junk="j"` succeeds, keeps `x` with its
supplied value, and drops `junk`. -/
theorem processor_init_params_exact_witness :
    (Processor.init exCls none [] exKw).isOk = true ∧
    lookupStr [("x", PyVal.int 5)] "x" = some (PyVal.int 5) ∧
    lookupStr [("x", PyVal.int 5)] "junk" = none := by
  have h := processor_init_params_exact exCls none [] exKw (by decide)
  refine ⟨h.1, ?_, ?_⟩
  · have hx := (h.2 ⟨none, [("x", PyVal.int 5)]⟩ rfl).2 "x"
    simpa using hx
  · have hj := (h.2 ⟨none, [("x", PyVal.int 5)]⟩ rfl).2 "junk"
    simpa using hj

/-- C3: when one or more required names are absent from the kwargs,
construction fails with the missing-parameters error naming the class
and exactly the set of missing required names (all of them, whatever
optional names were supplied); and when no required name is absent,
construction succeeds — the only failure condition. -/
theorem processor_init_missing_params (cls : ProcessorClass)
    (name : Option String) (args : List PyVal) (kwargs : Dict PyVal) :
    ((∃ r ∈ cls.required_params, lookupStr kwargs r = none) →
      ∃ missing, Processor.init cls name args kwargs =
          .error (.missingParameters cls.className missing) ∧
        ∀ x, x ∈ missing ↔
          (x ∈ cls.required_params ∧ lookupStr kwargs x = none)) ∧
    ((∀ r ∈ cls.required_params, (lookupStr kwargs r).isSome) →
      (Processor.init cls name args kwargs).isOk = true) := by
  constructor
  · rintro ⟨r, hr, hnone⟩
    refine ⟨(cls.required_params.filter
      (fun r => (lookupStr kwargs r).isNone)).dedup, ?_, ?_⟩
    · rw [Processor.init]
      have hne : ¬ ((cls.required_params.filter
          (fun r => (lookupStr kwargs r).isNone)).dedup).isEmpty := by
        simp only [List.isEmpty_iff, List.dedup_eq_nil, List.filter_eq_nil_iff]
        push_neg
        exact ⟨r, hr, by simp [hnone]⟩
      simp [hne]
    · intro x
      simp [List.mem_dedup, List.mem_filter, Option.isNone_iff_eq_none]
  · intro h
    simp [Processor.init, init_missing_isEmpty cls kwargs h, Except.isOk, Except.toBool]

/-- C3 witness: the class requiring `x`, constructed with only the
optional `opt` supplied, fails, and the error names `x` as missing. -/
theorem processor_init_missing_params_witness :
    (Processor.init exCls none [] [("opt", PyVal.str "o")]).isOk = false := by
  obtain ⟨missing, heq, -⟩ :=
    (processor_init_missing_params exCls none [] [("opt", PyVal.str "o")]).1
      ⟨"x", by decide, by decide⟩
  rw [heq]
  rfl

/-- C7: the attribute fallback returns the stored parameter value when
the requested name is a key of `params`, and otherwise raises the
attribute error identifying the concrete class and the attribute
name. -/
theorem processor_getattr_fallback_spec (cls : ProcessorClass)
    (st : ProcessorState) (attr : String) :
    (∀ v, lookupStr st.params attr = some v →
      Processor.getattrFallback cls st attr = .ok v) ∧
    (lookupStr st.params attr = none →
      Processor.getattrFallback cls st attr =
        .error (.attributeError cls.className attr)) := by
  constructor
  · intro v hv
    simp [Processor.getattrFallback, hv]
  · intro hn
    simp [Processor.getattrFallback, hn]

/-- C7 witness: on a state with params `x = 5`, reading `x` through
the fallback yields `5`, and reading `y` raises the attribute error
naming the class and `y`. -/
theorem processor_getattr_fallback_spec_witness :
    Processor.getattrFallback exCls ⟨none, [("x", PyVal.int 5)]⟩ "x" =
      .ok (PyVal.int 5) ∧
    Processor.getattrFallback exCls ⟨none, [("x", PyVal.int 5)]⟩ "y" =
      .error (.attributeError "ExProc" "y") :=
  ⟨(processor_getattr_fallback_spec exCls ⟨none, [("x", PyVal.int 5)]⟩ "x").1
      (PyVal.int 5) (by decide),
   (processor_getattr_fallback_spec exCls ⟨none, [("x", PyVal.int 5)]⟩ "y").2
      (by decide)⟩

/-- C10: positional arguments beyond the first are bound to `*args`
and never referenced, so construction is entirely independent of
them: same success or failure, same name, same params. -/
theorem processor_init_ignores_positional_args (cls : ProcessorClass)
    (name : Option String) (args1 args2 : List PyVal) (kwargs : Dict PyVal) :
    Processor.init cls name args1 kwargs =
      Processor.init cls name args2 kwargs := rfl

/-- C8: `add` on a Processor instance appends it at the end of the
child list and reports success; `add` on any non-Processor value
raises the type error and returns the child list unchanged; and the
in-place append operator is identical to `add`. -/
theorem groupprocessor_add_typecheck (className : String)
    (procs : List ChildProc) :
    (∀ p, GroupProcessor.add className procs (.proc p) =
      (.ok (), procs ++ [p])) ∧
    (∀ v, GroupProcessor.add className procs (.nonProc v) =
      (.error (.typeError ("The " ++ className ++
        " class can only append Processor type objects.")), procs)) ∧
    (∀ x, GroupProcessor.iadd className procs x =
      GroupProcessor.add className procs x) :=
  ⟨fun _ => rfl, fun _ => rfl, fun _ => rfl⟩

/-- C1 refutation at the failing input: a group (own kwargs dict id 0,
initially empty) with children `childA` (which sets `kwargs["x"] = 1`)
and `childB`.  Under the code, `childA` receives a fresh dict (id 1)
and `childB` another fresh dict (id 2) still empty: no child receives
the group's own dict (id 0) and `childA`'s write is invisible to
`childB`.  Under the spec's shared-context semantics both children
would receive dict 0 and `childB` would see `x = 1`.  This contradicts
the claim, and also the source's own docstring, which says processed
data placed in the kwargs reaches subsequent processors. -/
theorem groupprocessor_context_not_shared :
    GroupProcessor.process [childA, childB] 0 [] =
      [⟨1, []⟩, ⟨2, []⟩] ∧
    GroupProcessor.processSharedSpec [childA, childB] 0 [] =
      [⟨0, []⟩, ⟨0, [("x", PyVal.int 1)]⟩] := by
  constructor <;> rfl

/-- C9 refutation at the failing input: printing a processor whose
params hold the integer value `x = 5` (the spec's own scenario) raises
`TypeError`, because the source joins `(k, v)` with `str.join`, which
requires every item to be a string.  With a string-valued parameter
the very same call renders the documented single line, confirming the
crash is caused by the non-str value alone. -/
theorem processor_print_crashes_on_int_param :
    Processor.printLine exCls ⟨none, [("x", PyVal.int 5)]⟩ 0 2 "" =
      .error (.typeError "sequence item 1: expected str instance") ∧
    Processor.printLine exCls ⟨none, [("x", PyVal.str "5")]⟩ 1 2 "3" =
      .ok "  3. ExProc(x=5)" := by
  constructor <;> rfl

/-- C4 counterexample: when importing `badpkg` raises an exception
that is not an `ImportError`, the first `get_module` call attempts the
load, lets the exception escape, and caches nothing; a second call for
the same name (on the cache the first call left behind) attempts the
load again.  Two resolution attempts are made for one name, refuting
the claim that every later call returns a cached outcome without
re-attempting. -/
theorem module_cache_reattempts_after_raise :
    Module.get_module envRaise mRaise [] =
      (.error (.raised "boom"), [], true) ∧
    (Module.get_module envRaise mRaise
      (Module.get_module envRaise mRaise []).2.1).2.2 = true := by
  constructor <;> rfl

/-- C4 (amended): provided a `get_module` call returns (rather than
propagating a non-ImportError exception), its outcome is cached under
the module's name and any later call for the same name — from any
Module instance, whatever its category or callable name — returns that
same cached outcome without making a load attempt; a call that finds
its name already cached likewise returns the cached entry without
attempting a load. -/
theorem module_cache_single_resolution (env : PyEnv) (m mB : Module)
    (cache : ModuleCache) (hname : mB.name = m.name) :
    (∀ c, lookupStr cache m.name = some c →
      Module.get_module env m cache = (.ok c, cache, false)) ∧
    (∀ r cache2 b, Module.get_module env m cache = (.ok r, cache2, b) →
      Module.get_module env mB cache2 = (.ok r, cache2, false)) := by
  constructor
  · intro c hc
    simp [Module.get_module, hc]
  · intro r cache2 b hcall
    rw [Module.get_module] at hcall
    cases hlook : lookupStr cache m.name with
    | some c =>
      rw [hlook] at hcall
      simp only [Prod.mk.injEq, Except.ok.injEq] at hcall
      obtain ⟨h1, h2, -⟩ := hcall
      subst h1
      subst h2
      simp [Module.get_module, hname, hlook]
    | none =>
      rw [hlook] at hcall
      cases hload : env.load m.name with
      | ok mod =>
        rw [hload] at hcall
        simp only [Prod.mk.injEq, Except.ok.injEq] at hcall
        obtain ⟨h1, h2, -⟩ := hcall
        subst h1
        subst h2
        have hfound : lookupStr (cache ++ [(m.name, some mod)]) m.name =
            some (some mod) := by
          rw [lookupStr_append, hlook]
          simp [lookupStr]
        simp [Module.get_module, hname, hfound]
      | importError =>
        rw [hload] at hcall
        simp only [Prod.mk.injEq, Except.ok.injEq] at hcall
        obtain ⟨h1, h2, -⟩ := hcall
        subst h1
        subst h2
        have hfound : lookupStr
            (cache ++ [(m.name, (none : Option ModuleRef))]) m.name =
            some none := by
          rw [lookupStr_append, hlook]
          simp [lookupStr]
        simp [Module.get_module, hname, hfound]
      | raises e =>
        rw [hload] at hcall
        simp only [Prod.mk.injEq] at hcall
        exact absurd hcall.1 (by simp)

/-- C4 witness: after a first resolution of `pkg` populates the cache,
a later call for the same name returns the cached module and makes no
load attempt. -/
theorem module_cache_single_resolution_witness :
    Module.get_module envW mW [("pkg", some modW)] =
      (.ok (some modW), [("pkg", some modW)], false) :=
  (module_cache_single_resolution envW mW mW [] rfl).2
    (some modW) [("pkg", some modW)] true rfl

/-- C5 counterexample: when importing `badpkg` raises an exception
that is not an `ImportError`, `get_module` propagates that exception
instead of returning the unavailable sentinel, and caches nothing —
the failure escapes as a raised error, refuting the claim that no load
failure whatsoever ever escapes. -/
theorem module_load_error_escapes :
    (Module.get_module envRaise mRaise []).1 = .error (.raised "boom") ∧
    (Module.get_module envRaise mRaise []).2.1 = [] := by
  constructor <;> rfl

/-- C5 (amended): for a name not yet cached, a load failing with
`ImportError` is caught: the unavailable sentinel is cached under the
name and returned rather than raised; a load failing with any other
exception propagates out of `get_module` uncaught and caches nothing.
Within `ImportError`, module-not-found and other import errors are
treated identically. -/
theorem module_importerror_caches_unavailable (env : PyEnv) (m : Module)
    (cache : ModuleCache) (hnc : lookupStr cache m.name = none) :
    (env.load m.name = .importError →
      Module.get_module env m cache =
        (.ok none, cache ++ [(m.name, none)], true)) ∧
    (∀ e, env.load m.name = .raises e →
      Module.get_module env m cache = (.error (.raised e), cache, true)) := by
  constructor
  · intro hload
    simp [Module.get_module, hnc, hload]
  · intro e hload
    simp [Module.get_module, hnc, hload]

/-- C5 witness: resolving the uninstalled `absent_pkg` returns the
unavailable sentinel and caches it, without raising. -/
theorem module_importerror_caches_unavailable_witness :
    Module.get_module envW mAbsent [] =
      (.ok none, [("absent_pkg", none)], true) :=
  (module_importerror_caches_unavailable envW mAbsent [] rfl).1 rfl

/-- C6 counterexample: with no module installed, `get_module` for
`absent_pkg` resolves to the unavailable sentinel (Python `None`), yet
`get_callable` with callable name `__class__` does not return the
sentinel: `getattr(None, "__class__", None)` finds an attribute on the
`None` object itself.  This refutes the claim that `get_callable`
returns the sentinel whenever the unit is unavailable. -/
theorem module_get_callable_dunder_leak :
    (Module.get_module envAbsent mDunder []).1 = .ok none ∧
    (Module.get_callable envAbsent mDunder []).1 = .ok (some 9000) := by
  constructor <;> rfl

/-- C6 (amended): `get_callable` returns
`getattr(unit-or-None, callable_name, None)`: when the unit resolves,
its `callable_name` attribute if present and the sentinel otherwise;
when the unit is unavailable, the attribute lookup happens on the
`None` object, so the sentinel is returned exactly when
`callable_name` is not among `None`'s own attributes (which it is not
for any ordinary function name). -/
theorem module_get_callable_getattr (env : PyEnv) (m : Module)
    (cache : ModuleCache) :
    (∀ cache2 att, Module.get_module env m cache = (.ok none, cache2, att) →
      Module.get_callable env m cache =
        (.ok (lookupStr noneAttrs m.callable_name), cache2, att)) ∧
    (∀ mod cache2 att,
      Module.get_module env m cache = (.ok (some mod), cache2, att) →
      Module.get_callable env m cache =
        (.ok (lookupStr mod.attrs m.callable_name), cache2, att)) := by
  constructor
  · intro cache2 att hcall
    simp [Module.get_callable, hcall, pyGetattrOr]
  · intro mod cache2 att hcall
    simp [Module.get_callable, hcall, pyGetattrOr]

/-- C6 witness: for the installed `pkg` exposing `fn`, `get_callable`
returns that attribute; for the uninstalled `absent_pkg` with ordinary
callable name `fn`, it returns the sentinel. -/
theorem module_get_callable_getattr_witness :
    Module.get_callable envW mW [] =
      (.ok (some 1), [("pkg", some modW)], true) ∧
    Module.get_callable envW mAbsent [] =
      (.ok none, [("absent_pkg", none)], true) :=
  ⟨(module_get_callable_getattr envW mW []).2 modW [("pkg", some modW)] true rfl,
   (module_get_callable_getattr envW mAbsent []).1
     [("absent_pkg", none)] true rfl⟩

end PocketChemist
